import Mathlib

/-!
Verification of the support-ticket triage agent (agent.py, models.py, tools.py)
as a shallow embedding in Lean 4.

Conventions:
* Python `json.loads` results are modelled by the inductive `Json` type
  (integers only for numbers, which is the granularity these claims need).
* Pydantic validation (`models.py`) is embedded as executable validators
  returning `Except String α`; success/failure and resulting field values
  mirror the source, while the exact error text is abbreviated.
* Python strings handled character-by-character (`_parse_response`) are
  modelled as `List Char`; identifiers and messages stay `String`.
-/

namespace Triage

/-- Decoded JSON values, as produced by `json.loads` on the payloads that
concern us (numbers restricted to integers). -/
inductive Json where
  | null : Json
  | bool (b : Bool) : Json
  | num (n : Int) : Json
  | str (s : String) : Json
  | arr (items : List Json) : Json
  | obj (fields : List (String × Json)) : Json
  deriving Repr

/-- Python dict key lookup on a decoded JSON object (keys are unique in a
decoded payload, so first match suffices). -/
def getField (fs : List (String × Json)) (k : String) : Option Json :=
  match fs with
  | [] => none
  | (k', v) :: rest => if k' = k then some v else getField rest k

/-- Characters stripped by Python `str.strip()` with no arguments. -/
def pySpace (c : Char) : Bool :=
  c = ' ' || c = '\t' || c = '\n' || c = '\r' || c = '\x0b' || c = '\x0c'

/-- Python `str.strip()`: drop whitespace from both ends. -/
def pyStrip (s : List Char) : List Char :=
  ((s.reverse.dropWhile pySpace).reverse).dropWhile pySpace

/-- A nonempty all-decimal-digit character run parsed as an integer. -/
def parseDigits (l : List Char) : Option Int :=
  if l.isEmpty then none
  else if l.all Char.isDigit then
    some (l.foldl (fun acc c => acc * 10 + ((c.toNat - '0'.toNat : Nat) : Int)) 0)
  else none

/-- pydantic-core's lax string-to-int coercion as exercised by this
program's payloads: surrounding whitespace stripped, an optional single
sign, then decimal digits.  (Exotic forms such as decimal-point or
exponent strings are outside the envelope any theorem below relies on.) -/
def str_as_int (s : String) : Option Int :=
  match pyStrip s.data with
  | '+' :: rest => parseDigits rest
  | '-' :: rest => (parseDigits rest).map (fun n => -n)
  | rest => parseDigits rest

/-- The integer a decoded JSON value yields under pydantic v2's default
(lax) validation of an `int` field: integer literals pass through, numeric
strings are coerced via `str_as_int`, and null/boolean/array/object values
are rejected (pydantic explicitly refuses `bool` for `int`). -/
def intFromJson : Json → Option Int
  | .num n => some n
  | .str s => str_as_int s
  | _ => none

/-- JSON string escaping as performed by `json.dumps(..., ensure_ascii=False)`:
quote, backslash and control characters are escaped, everything else is kept. -/
def escapeChar (c : Char) : String :=
  if c = '"' then "\\\""
  else if c = '\\' then "\\\\"
  else if c = '\n' then "\\n"
  else if c = '\t' then "\\t"
  else if c = '\r' then "\\r"
  else if c.toNat < 32 then "\\u" ++ (Nat.toDigits 16 c.toNat).asString
  else String.singleton c

def escapeString (s : String) : String :=
  String.join (s.data.map escapeChar)

mutual
/-- `json.dumps(v, ensure_ascii=False)` with Python's default separators
`", "` and `": "`. -/
def Json.dumps : Json → String
  | .null => "null"
  | .bool true => "true"
  | .bool false => "false"
  | .num n => toString n
  | .str s => "\"" ++ escapeString s ++ "\""
  | .arr items => "[" ++ Json.dumpsList items ++ "]"
  | .obj fields => "\x7b" ++ Json.dumpsFields fields ++ "\x7d"

def Json.dumpsList : List Json → String
  | [] => ""
  | [x] => Json.dumps x
  | x :: rest => Json.dumps x ++ ", " ++ Json.dumpsList rest

def Json.dumpsFields : List (String × Json) → String
  | [] => ""
  | [(k, v)] => "\"" ++ escapeString k ++ "\": " ++ Json.dumps v
  | (k, v) :: rest =>
      "\"" ++ escapeString k ++ "\": " ++ Json.dumps v ++ ", " ++ Json.dumpsFields rest
end

/-! ## models.py — pydantic schema embedding -/

/-- `TicketAnalysis` (models.py lines 9-30). -/
structure TicketAnalysis where
  urgency : String
  sentiment : String
  issue_type : String
  product_area : String
  language : String
  summary : String
  deriving Repr, DecidableEq

/-- `SuggestedAction` (models.py lines 33-61). -/
structure SuggestedAction where
  action : String
  suggested_reply : String
  reason : String
  priority_score : Int
  auto_response : Option String
  routing_department : Option String
  escalation_notes : Option String
  deriving Repr, DecidableEq

/-- `TriageResult` (models.py lines 64-86). -/
structure TriageResult where
  ticket_id : String
  analysis : TicketAnalysis
  action : SuggestedAction
  customer_context : String
  kb_articles_used : List String
  deriving Repr, DecidableEq

/-- Declared literal values of `TicketAnalysis.urgency`. -/
def urgencyLiterals : List String := ["critical", "high", "medium", "low"]

/-- Declared literal values of `TicketAnalysis.sentiment`. -/
def sentimentLiterals : List String := ["angry", "frustrated", "neutral", "positive"]

/-- Declared literal values of `SuggestedAction.action`. -/
def actionLiterals : List String := ["auto_respond", "route_to_specialist", "escalate_to_human"]

/-- Validate a required `str` field value. -/
def vStr (fieldName : String) : Json → Except String String
  | .str s => .ok s
  | _ => .error (fieldName ++ ": string required")

/-- Validate a `Literal[...]` field value: must be a string equal
(case-sensitively) to one of the declared literals. -/
def vLiteral (allowed : List String) (fieldName : String) : Json → Except String String
  | .str s => if s ∈ allowed then .ok s else .error (fieldName ++ ": not a permitted literal")
  | _ => .error (fieldName ++ ": string literal required")

/-- Validate an `int` field carrying `Field(ge=lo, le=hi)` constraints
under pydantic v2's default lax mode: the raw value is first coerced to an
integer by `intFromJson` (so an integer numeric string like `"7"` is
accepted), then checked against the bounds. -/
def vIntRange (lo hi : Int) (fieldName : String) (j : Json) : Except String Int :=
  match intFromJson j with
  | some n =>
      if lo ≤ n ∧ n ≤ hi then .ok n
      else .error (fieldName ++ ": out of range")
  | none => .error (fieldName ++ ": integer required")

/-- Validate an `Optional[str]` field value when present. -/
def vOptStr (fieldName : String) : Json → Except String (Option String)
  | .null => .ok none
  | .str s => .ok (some s)
  | _ => .error (fieldName ++ ": string or null required")

/-- Validate a `list[str]` field value. -/
def vListStr (fieldName : String) : Json → Except String (List String)
  | .arr items =>
      items.foldr
        (fun j acc => do
          let s ← vStr fieldName j
          let rest ← acc
          pure (s :: rest))
        (.ok [])
  | _ => .error (fieldName ++ ": list required")

/-- A required field: absent key is a validation error. -/
def vRequired (fs : List (String × Json)) (k : String)
    (v : Json → Except String α) : Except String α :=
  match getField fs k with
  | none => .error (k ++ ": field required")
  | some j => v j

/-- An `Optional[...] = Field(default=None)` field: absent key yields `none`. -/
def vOptionalField (fs : List (String × Json)) (k : String) :
    Except String (Option String) :=
  match getField fs k with
  | none => .ok none
  | some j => vOptStr k j

/-- `TicketAnalysis.model_validate` on a decoded payload. -/
def TicketAnalysis.model_validate (j : Json) : Except String TicketAnalysis :=
  match j with
  | .obj fs => do
      let urgency ← vRequired fs "urgency" (vLiteral urgencyLiterals "urgency")
      let sentiment ← vRequired fs "sentiment" (vLiteral sentimentLiterals "sentiment")
      let issue_type ← vRequired fs "issue_type" (vStr "issue_type")
      let product_area ← vRequired fs "product_area" (vStr "product_area")
      let language ← vRequired fs "language" (vStr "language")
      let summary ← vRequired fs "summary" (vStr "summary")
      pure ⟨urgency, sentiment, issue_type, product_area, language, summary⟩
  | _ => .error "TicketAnalysis: object required"

/-- `SuggestedAction.model_validate` on a decoded payload. -/
def SuggestedAction.model_validate (j : Json) : Except String SuggestedAction :=
  match j with
  | .obj fs => do
      let action ← vRequired fs "action" (vLiteral actionLiterals "action")
      let suggested_reply ← vRequired fs "suggested_reply" (vStr "suggested_reply")
      let reason ← vRequired fs "reason" (vStr "reason")
      let priority_score ← vRequired fs "priority_score" (vIntRange 1 10 "priority_score")
      let auto_response ← vOptionalField fs "auto_response"
      let routing_department ← vOptionalField fs "routing_department"
      let escalation_notes ← vOptionalField fs "escalation_notes"
      pure ⟨action, suggested_reply, reason, priority_score,
            auto_response, routing_department, escalation_notes⟩
  | _ => .error "SuggestedAction: object required"

/-- The `mode="before"` validator `TriageResult.coerce_customer_context`
(models.py lines 80-86): a dict value is replaced by its JSON text. -/
def coerce_customer_context (v : Json) : Json :=
  match v with
  | .obj fs => .str (Json.dumps (.obj fs))
  | _ => v

/-- Validation of the `customer_context` field: the before-mode coercion is
applied first, then the plain string check. -/
def vCustomerContext (j : Json) : Except String String :=
  vStr "customer_context" (coerce_customer_context j)

/-- Validation of the `kb_articles_used` field, whose
`default_factory=list` makes an absent key validate to `[]`. -/
def vKbArticles (fs : List (String × Json)) : Except String (List String) :=
  match getField fs "kb_articles_used" with
  | none => .ok []
  | some j => vListStr "kb_articles_used" j

/-- `TriageResult.model_validate` on a decoded payload. -/
def TriageResult.model_validate (j : Json) : Except String TriageResult :=
  match j with
  | .obj fs => do
      let ticket_id ← vRequired fs "ticket_id" (vStr "ticket_id")
      let analysis ← vRequired fs "analysis" TicketAnalysis.model_validate
      let action ← vRequired fs "action" SuggestedAction.model_validate
      let customer_context ← vRequired fs "customer_context" vCustomerContext
      let kb_articles_used ← vKbArticles fs
      pure ⟨ticket_id, analysis, action, customer_context, kb_articles_used⟩
  | _ => .error "TriageResult: object required"

/-! ## agent.py `_parse_response` — answer parsing

Python string operations on the final-answer content are modelled on
`List Char`.  `decode` stands for `json.loads` (external library code),
mapping the cleaned text to a decoded value or the decoder's error text. -/

/-- `json_str.startswith("```")`. -/
def startsWithFence (s : List Char) : Bool :=
  match s with
  | '`' :: '`' :: '`' :: _ => true
  | _ => false

/-- `json_str.split("\n", 1)[1]`: everything after the first newline. -/
def afterFirstNewline : List Char → List Char
  | [] => []
  | c :: rest => if c = '\n' then rest else afterFirstNewline rest

/-- Helper for `rsplit("```", 1)[0]`: scanning the reversed text, drop
characters up to and including the first (i.e. the original text's last)
occurrence of three backticks. -/
def findFenceRev : List Char → Option (List Char)
  | '`' :: '`' :: '`' :: rest => some rest
  | _ :: rest => findFenceRev rest
  | [] => none

/-- `json_str.rsplit("```", 1)[0]`: the text before the last occurrence of
three backticks (unchanged when there is none). -/
def dropAfterLastFence (s : List Char) : List Char :=
  match findFenceRev s.reverse with
  | some rest => rest.reverse
  | none => s

/-- The cleaning block of `_parse_response` (agent.py lines 202-207):
strip, then if the text starts with a code fence drop the fence line
(or just the three backticks when there is no newline), cut at the last
closing fence, and strip again. -/
def extract_json (content : List Char) : List Char :=
  let s := pyStrip content
  if startsWithFence s then
    let s1 := if s.contains '\n' then afterFirstNewline s else s.drop 3
    pyStrip (dropAfterLastFence s1)
  else s

/-- The failure modes of `_parse_response`, each carrying the raised
`ValueError`'s message (validation failures keep pydantic's message). -/
inductive ParseErr where
  | emptyResponse (msg : String)
  | invalidJson (msg : String)
  | validationFailed (msg : String)
  deriving Repr, DecidableEq

/-- `TriageAgent._parse_response` (agent.py lines 195-216).  `content` is
`None` or the final message text; Python's `not content` is true exactly
for `None` and the empty string. -/
def parse_response (decode : List Char → Except String Json)
    (content : Option (List Char)) (ticket_id : String) :
    Except ParseErr TriageResult :=
  match content with
  | none => .error (.emptyResponse ("Empty response from LLM for ticket " ++ ticket_id))
  | some c =>
    if c = [] then
      .error (.emptyResponse ("Empty response from LLM for ticket " ++ ticket_id))
    else
      match decode (extract_json c) with
      | .error e =>
          .error (.invalidJson ("LLM returned invalid JSON for ticket " ++ ticket_id ++ ": " ++ e))
      | .ok data =>
          match TriageResult.model_validate data with
          | .error e => .error (.validationFailed e)
          | .ok r => .ok r

/-! ## agent.py — the tool-calling agent loop

The loop's interaction with the outside world (the two model providers and
the side-effecting tool bodies) is supplied as an environment: one
`RoundEnv` per round describing what each provider call and each registered
tool execution would yield that round.  `ToolCall.argumentsDecode` is the
outcome of `json.loads` on the call's argument text. -/

/-- One element of `ticket["messages"]`; `.get` defaults are applied at use
sites like in `_format_ticket`. -/
structure TicketMessage where
  timestamp : Option String
  content : Option String

/-- The ticket dict consumed by `process_ticket`. -/
structure Ticket where
  ticket_id : String
  customer_email : String
  subject : Option String
  messages : List TicketMessage

/-- `TriageAgent._format_ticket` (agent.py lines 176-193). -/
def format_ticket (t : Ticket) : String :=
  String.intercalate "\n"
    (["## Support Ticket: " ++ t.ticket_id,
      "**Customer Email:** " ++ t.customer_email,
      "**Subject:** " ++ t.subject.getD "N/A",
      "",
      "### Messages (oldest to newest):"]
     ++ t.messages.map (fun m =>
          "\n[" ++ m.timestamp.getD "unknown" ++ "]\n" ++ m.content.getD ""))

/-- A tool call requested by the model.  `argumentsDecode` records what
`json.loads(tool_call.function.arguments)` yields: the decoded keyword
mapping, or the `JSONDecodeError` message it raises on malformed text. -/
structure ToolCall where
  id : String
  name : String
  argumentsDecode : Except String (List (String × Json))

/-- `choice.message`: optional text content plus requested tool calls. -/
structure ModelMessage where
  content : Option (List Char)
  tool_calls : List ToolCall

/-- `response.choices[0]`. -/
structure ModelChoice where
  finish_reason : String
  message : ModelMessage

/-- `response.usage` token counters. -/
structure Usage where
  total_tokens : Nat
  prompt_tokens : Nat
  completion_tokens : Nat

/-- One chat-completions response. -/
structure ModelResponse where
  choice : ModelChoice
  usage : Option Usage

/-- Outcome of the primary provider's call for one round: a response, or a
`RateLimitError` with the given message. -/
inductive PrimaryOutcome where
  | ok (r : ModelResponse)
  | rateLimited (msg : String)

/-- Outcome of the fallback provider's call for one round: a response, or
any exception with the given message. -/
inductive FallbackOutcome where
  | ok (r : ModelResponse)
  | failed (msg : String)

/-- Outcome of executing a registered tool body: its return value, or the
message of the exception it raises. -/
inductive ToolOutcome where
  | success (result : Json)
  | raises (msg : String)

/-- Environment for one loop round: the two providers' behavior and the
registered tools' behavior on the arguments they would receive. -/
structure RoundEnv where
  primary : PrimaryOutcome
  fallback : FallbackOutcome
  toolExec : String → List (String × Json) → ToolOutcome

/-- One conversation turn in `messages`.  A tool turn's content is the
`json.dumps` of the tool result, as in agent.py line 169. -/
inductive Message where
  | system (content : String)
  | user (content : String)
  | assistant (msg : ModelMessage)
  | tool (tool_call_id : String) (content : String)

/-- `ToolTrace` (agent.py lines 33-41). -/
structure ToolTrace where
  tool_name : String
  arguments : List (String × Json)
  result : Json

/-- `AgentResponse` (agent.py lines 43-53). -/
structure AgentResponse where
  result : TriageResult
  tool_traces : List ToolTrace
  rounds : Nat
  total_tokens : Nat
  prompt_tokens : Nat
  completion_tokens : Nat

/-- The exceptions `process_ticket` can raise. -/
inductive AgentErr where
  | roundsExceeded (msg : String)
  | rateLimitAndFallbackFailed (msg : String) (cause : String)
  | toolArgsDecodeError (msg : String)
  | parseFailed (e : ParseErr)
  deriving Repr, DecidableEq

/-- A raise out of `process_ticket`, together with the local
`tool_traces` list and the 1-based number of the round in progress at the
raise point (observability of the loop's locals; the Python exception
itself carries only the message). -/
structure AgentFailure where
  err : AgentErr
  traces : List ToolTrace
  rounds : Nat

/-- The loop's mutable locals: `messages`, `tool_traces`, the round
counter and the three usage counters. -/
structure LoopState where
  messages : List Message
  traces : List ToolTrace
  rounds : Nat
  total_tokens : Nat
  prompt_tokens : Nat
  completion_tokens : Nat

/-- `TriageAgent.MAX_TOOL_ROUNDS`. -/
def MAX_TOOL_ROUNDS : Nat := 5

/-- The keys of `TOOL_DISPATCH` (tools.py lines 107-110). -/
def TOOL_DISPATCH_names : List String :=
  ["fetch_customer_data", "query_knowledge_base"]

/-- The provider-call block of one round (agent.py lines 92-116): try the
primary; on a rate limit try the fallback; if that also fails, raise
`RuntimeError(f"Rate limit reached and fallback failed: {e}")` chained
`from fallback_error` (so the error names both causes). -/
def callModelOnce (env : RoundEnv) : Except AgentErr ModelResponse :=
  match env.primary with
  | .ok r => .ok r
  | .rateLimited e =>
    match env.fallback with
    | .ok r => .ok r
    | .failed fe =>
        .error (.rateLimitAndFallbackFailed
          ("Rate limit reached and fallback failed: " ++ e) fe)

/-- Tool dispatch for one named call with decoded arguments (agent.py lines
148-157): unknown names and raising tool bodies both become structured
error objects, never exceptions. -/
def runTool (env : RoundEnv) (name : String) (args : List (String × Json)) : Json :=
  if TOOL_DISPATCH_names.contains name then
    match env.toolExec name args with
    | .success v => v
    | .raises m => .obj [("error", .str m)]
  else
    .obj [("error", .str ("Unknown tool: " ++ name))]

/-- Handling of one requested tool call (agent.py lines 144-170):
`json.loads` on the argument text is outside any `try`, so its failure
raises out of the loop; otherwise dispatch, record a `ToolTrace` and append
the tool-result turn. -/
def dispatchOne (env : RoundEnv) (st : LoopState) (tc : ToolCall) :
    Except AgentFailure LoopState :=
  match tc.argumentsDecode with
  | .error m => .error ⟨.toolArgsDecodeError m, st.traces, st.rounds⟩
  | .ok args =>
    let tool_result := runTool env tc.name args
    .ok { st with
          traces := st.traces ++ [⟨tc.name, args, tool_result⟩],
          messages := st.messages ++ [.tool tc.id (Json.dumps tool_result)] }

/-- The `for tool_call in choice.message.tool_calls` loop. -/
def dispatchCalls (env : RoundEnv) (st : LoopState) :
    List ToolCall → Except AgentFailure LoopState
  | [] => .ok st
  | tc :: rest =>
    match dispatchOne env st tc with
    | .error f => .error f
    | .ok st' => dispatchCalls env st' rest

/-- Usage accumulation (agent.py lines 119-122). -/
def addUsage (st : LoopState) (r : ModelResponse) : LoopState :=
  match r.usage with
  | none => st
  | some u =>
    { st with
      total_tokens := st.total_tokens + u.total_tokens,
      prompt_tokens := st.prompt_tokens + u.prompt_tokens,
      completion_tokens := st.completion_tokens + u.completion_tokens }

/-- The `for round_num in range(MAX_TOOL_ROUNDS)` loop of `process_ticket`
(agent.py lines 91-174), one `RoundEnv` per remaining round; exhausting
the list is the final bounded-rounds `RuntimeError`. -/
def runRounds (decode : List Char → Except String Json) (tid : String) :
    List RoundEnv → LoopState → Except AgentFailure AgentResponse
  | [], st =>
    .error ⟨.roundsExceeded
        ("Agent exceeded " ++ toString MAX_TOOL_ROUNDS ++ " tool rounds for ticket " ++ tid),
      st.traces, st.rounds⟩
  | env :: rest, st =>
    match callModelOnce env with
    | .error e => .error ⟨e, st.traces, st.rounds + 1⟩
    | .ok resp =>
      let st1 := addUsage { st with rounds := st.rounds + 1 } resp
      if resp.choice.finish_reason = "stop" ∨ resp.choice.message.tool_calls.isEmpty then
        match parse_response decode resp.choice.message.content tid with
        | .error pe => .error ⟨.parseFailed pe, st1.traces, st1.rounds⟩
        | .ok result =>
            .ok ⟨result, st1.traces, st1.rounds,
                 st1.total_tokens, st1.prompt_tokens, st1.completion_tokens⟩
      else
        let st2 := { st1 with messages := st1.messages ++ [.assistant resp.choice.message] }
        match dispatchCalls env st2 resp.choice.message.tool_calls with
        | .error f => .error f
        | .ok st3 => runRounds decode tid rest st3

/-- The conversation seeded with the system prompt and the formatted
ticket (agent.py lines 81-88). -/
def initState (system_prompt : String) (t : Ticket) : LoopState :=
  ⟨[.system system_prompt, .user (format_ticket t)], [], 0, 0, 0, 0⟩

/-- `TriageAgent.process_ticket` (agent.py lines 71-174), with the
provider/tool behavior for round `i` given by `envs i`. -/
def process_ticket (decode : List Char → Except String Json)
    (envs : Nat → RoundEnv) (system_prompt : String) (t : Ticket) :
    Except AgentFailure AgentResponse :=
  runRounds decode t.ticket_id ((List.range MAX_TOOL_ROUNDS).map envs)
    (initState system_prompt t)

/-! ## tools.py `fetch_customer_data`

The two JSON data files are passed in as decoded values: `customers` is the
list of customer objects from `customers.json` (each carrying an `"email"`
key) and `tiers` the plan-name-keyed table from `plan_tiers.json`. -/

/-- Assoc lookup in the decoded `plan_tiers.json` table. -/
def lookupTier (ts : List (String × List (String × Json))) (k : String) :
    Option (List (String × Json)) :=
  match ts with
  | [] => none
  | (k', v) :: rest => if k' = k then some v else lookupTier rest k

/-- `c["email"] == email` for one customer record. -/
def emailMatches (c : List (String × Json)) (email : String) : Bool :=
  match getField c "email" with
  | some (.str s) => s = email
  | _ => false

/-- `fetch_customer_data` (tools.py lines 24-50). -/
def fetch_customer_data (customers : List (List (String × Json)))
    (tiers : List (String × List (String × Json))) (email : String) : Json :=
  match customers.find? (fun c => emailMatches c email) with
  | none =>
      .obj [("error", .str "not_found"),
            ("message", .str ("No customer found with email: " ++ email))]
  | some c =>
    let planKey : Json := (getField c "plan").getD (.str "free")
    let tinfo : List (String × Json) :=
      (match planKey with
       | .str s => lookupTier tiers s
       | _ => none).getD []
    .obj (c ++ [("plan_details", .obj
      [("label", (getField tinfo "label").getD planKey),
       ("sla_hours", (getField tinfo "sla_hours").getD .null),
       ("priority", (getField tinfo "priority").getD (.str "low")),
       ("support_channel", (getField tinfo "support_channel").getD (.str "email")),
       ("features", (getField tinfo "features").getD (.arr [])),
       ("auto_escalate", (getField tinfo "auto_escalate").getD (.bool false))])])

/-! ## Helper lemmas: inversion principles for the validators -/

theorem exceptBind_ok {ε α β : Type} {x : Except ε α} {f : α → Except ε β} {b : β} :
    (x >>= f) = .ok b ↔ ∃ a, x = .ok a ∧ f a = .ok b := by
  cases x <;> simp [Bind.bind, Except.bind]

theorem exceptPure_ok {ε α : Type} {a b : α} :
    (pure a : Except ε α) = .ok b ↔ a = b := by
  simp [pure, Except.pure]

theorem exceptMap_ok {ε α β : Type} {f : α → β} {x : Except ε α} {b : β} :
    (f <$> x) = .ok b ↔ ∃ a, x = .ok a ∧ f a = b := by
  cases x <;> simp [Functor.map, Except.map]

theorem vRequired_ok {α : Type} {fs : List (String × Json)} {k : String}
    {v : Json → Except String α} {a : α} :
    vRequired fs k v = .ok a ↔ ∃ j, getField fs k = some j ∧ v j = .ok a := by
  unfold vRequired
  cases getField fs k <;> simp

theorem vStr_ok {fieldName : String} {j : Json} {s : String} :
    vStr fieldName j = .ok s ↔ j = .str s := by
  cases j <;> simp [vStr]

theorem vLiteral_ok {allowed : List String} {fieldName : String} {j : Json} {s : String} :
    vLiteral allowed fieldName j = .ok s ↔ j = .str s ∧ s ∈ allowed := by
  cases j <;> simp [vLiteral]
  case str s2 =>
    by_cases h : s2 ∈ allowed
    · simp [h]; exact fun he => he ▸ h
    · simp [h]; exact fun he => he ▸ h

theorem vIntRange_ok {lo hi : Int} {fieldName : String} {j : Json} {n : Int} :
    vIntRange lo hi fieldName j = .ok n ↔ intFromJson j = some n ∧ lo ≤ n ∧ n ≤ hi := by
  unfold vIntRange
  cases h : intFromJson j with
  | none => simp
  | some m =>
    show (if lo ≤ m ∧ m ≤ hi then Except.ok m
        else Except.error (fieldName ++ ": out of range")) = Except.ok n ↔
      some m = some n ∧ lo ≤ n ∧ n ≤ hi
    by_cases hc : lo ≤ m ∧ m ≤ hi
    · rw [if_pos hc]; simp; exact fun he => he ▸ hc
    · rw [if_neg hc]; simp; rintro rfl; omega

/-- Inversion for `TicketAnalysis.model_validate`: success pins down every
field of the payload. -/
theorem TicketAnalysis_validate_ok {j : Json} {a : TicketAnalysis}
    (h : TicketAnalysis.model_validate j = .ok a) :
    ∃ fs, j = .obj fs ∧
      getField fs "urgency" = some (.str a.urgency) ∧ a.urgency ∈ urgencyLiterals ∧
      getField fs "sentiment" = some (.str a.sentiment) ∧ a.sentiment ∈ sentimentLiterals ∧
      getField fs "issue_type" = some (.str a.issue_type) ∧
      getField fs "product_area" = some (.str a.product_area) ∧
      getField fs "language" = some (.str a.language) ∧
      getField fs "summary" = some (.str a.summary) := by
  cases j <;> simp [TicketAnalysis.model_validate] at h
  case obj fs =>
    simp only [exceptBind_ok, exceptMap_ok, exceptPure_ok,
      vRequired_ok, vStr_ok, vLiteral_ok] at h
    obtain ⟨u, ⟨ju, hju, hju2, hu⟩, se, ⟨js, hjs, hjs2, hs⟩, it, ⟨ji, hji, hji2⟩,
      pa, ⟨jp, hjp, hjp2⟩, la, ⟨jl, hjl, hjl2⟩, su, ⟨jsu, hjsu, hjsu2⟩, hres⟩ := h
    subst hres hju2 hjs2 hji2 hjp2 hjl2 hjsu2
    exact ⟨fs, rfl, hju, hu, hjs, hs, hji, hjp, hjl, hjsu⟩

/-- Inversion for `SuggestedAction.model_validate`: success pins down the
enum field and the (unclamped, in-range, lax-coerced) priority score of
the payload. -/
theorem SuggestedAction_validate_ok {j : Json} {a : SuggestedAction}
    (h : SuggestedAction.model_validate j = .ok a) :
    ∃ fs, j = .obj fs ∧
      getField fs "action" = some (.str a.action) ∧ a.action ∈ actionLiterals ∧
      (∃ v, getField fs "priority_score" = some v ∧
        intFromJson v = some a.priority_score) ∧
      1 ≤ a.priority_score ∧ a.priority_score ≤ 10 ∧
      getField fs "suggested_reply" = some (.str a.suggested_reply) ∧
      getField fs "reason" = some (.str a.reason) := by
  cases j <;> simp [SuggestedAction.model_validate] at h
  case obj fs =>
    simp only [exceptBind_ok, exceptMap_ok, exceptPure_ok,
      vRequired_ok, vStr_ok, vLiteral_ok, vIntRange_ok] at h
    obtain ⟨act, ⟨ja, hja, hja2, hact⟩, sr, ⟨jsr, hjsr, hjsr2⟩, rn, ⟨jr, hjr, hjr2⟩,
      ps, ⟨jps, hjps, hjps2, hlo, hhi⟩, ar, har, rd, hrd, en, hen, hres⟩ := h
    subst hres hja2 hjsr2 hjr2
    exact ⟨fs, rfl, hja, hact, ⟨jps, hjps, hjps2⟩, hlo, hhi, hjsr, hjr⟩

/-- Inversion for `TriageResult.model_validate`: success pins down where
every stored field value came from in the payload. -/
theorem TriageResult_validate_ok {j : Json} {r : TriageResult}
    (h : TriageResult.model_validate j = .ok r) :
    ∃ fs, j = .obj fs ∧
      getField fs "ticket_id" = some (.str r.ticket_id) ∧
      (∃ ja, getField fs "analysis" = some ja ∧
        TicketAnalysis.model_validate ja = .ok r.analysis) ∧
      (∃ jb, getField fs "action" = some jb ∧
        SuggestedAction.model_validate jb = .ok r.action) ∧
      (∃ jc, getField fs "customer_context" = some jc ∧
        vCustomerContext jc = .ok r.customer_context) ∧
      vKbArticles fs = .ok r.kb_articles_used := by
  cases j <;> simp [TriageResult.model_validate] at h
  case obj fs =>
    simp only [exceptBind_ok, exceptMap_ok, exceptPure_ok, vRequired_ok, vStr_ok] at h
    obtain ⟨tid, ⟨jt, hjt, hjt2⟩, an, ⟨jan, hjan, hjan2⟩, ac, ⟨jac, hjac, hjac2⟩,
      cc, ⟨jcc, hjcc, hjcc2⟩, kb, hkb, hres⟩ := h
    subst hres hjt2
    exact ⟨fs, rfl, hjt, ⟨jan, hjan, hjan2⟩, ⟨jac, hjac, hjac2⟩, ⟨jcc, hjcc, hjcc2⟩, hkb⟩

/-! ## Sample payloads used by the concrete witnesses -/

/-- A well-formed `analysis` sub-payload. -/
def sampleAnalysisJson : Json := .obj
  [("urgency", .str "high"), ("sentiment", .str "neutral"),
   ("issue_type", .str "billing"), ("product_area", .str "payments"),
   ("language", .str "en"), ("summary", .str "double charge")]

/-- A well-formed `action` sub-payload with the given `priority_score`. -/
def sampleActionJson (score : Json) : Json := .obj
  [("action", .str "route_to_specialist"), ("suggested_reply", .str "We are on it."),
   ("reason", .str "billing issue"), ("priority_score", score)]

/-- Top-level payload fields with adjustable ticket id, priority score,
customer context, and extra trailing fields. -/
def sampleFields (tid : String) (score cc : Json) (rest : List (String × Json)) :
    List (String × Json) :=
  [("ticket_id", .str tid), ("analysis", sampleAnalysisJson),
   ("action", sampleActionJson score), ("customer_context", cc)] ++ rest

/-- The `TicketAnalysis` that `sampleAnalysisJson` validates to. -/
def sampleAnalysisExpected : TicketAnalysis :=
  ⟨"high", "neutral", "billing", "payments", "en", "double charge"⟩

/-- The `SuggestedAction` that `sampleActionJson (.num n)` validates to. -/
def sampleActionExpected (n : Int) : SuggestedAction :=
  ⟨"route_to_specialist", "We are on it.", "billing issue", n, none, none, none⟩

/-! ## C4 -/

/-- **C4 counterexample.** pydantic v2's default (lax) validation coerces
integer numeric strings: a payload whose `priority_score` is the JSON
string `"7"` — not an integer — validates *successfully*, storing the
coerced score 7.  This refutes the claim that validation fails for every
payload in which `priority_score` is not an integer in [1,10]. -/
theorem C4_counterexample :
    TriageResult.model_validate (.obj (sampleFields "T-1" (.str "7") (.str "ctx") [])) =
      .ok ⟨"T-1", sampleAnalysisExpected, sampleActionExpected 7, "ctx", []⟩ :=
  rfl

/-- **C4 amended.** For every decoded payload whose `priority_score` value
coerces under pydantic's lax rules to an integer outside [1,10] (an
out-of-range integer literal or integer numeric string), or holds a value
of a kind lax mode never accepts for `int` (null, boolean, array, object —
pydantic explicitly rejects `bool`), or in which an enum field (`urgency`,
`sentiment`, or `action`) holds a value outside its declared literal set
(matched case-sensitively), schema validation fails and no `TriageResult`
(partial or whole) is produced.  Moreover, on every successful validation
the stored `priority_score` is exactly the lax-coerced payload value and
lies in [1,10] — an out-of-range score is never clamped into range. -/
theorem C4_priority_and_enum_rejection (p : Json) :
    (((∃ fs afs v n, p = .obj fs ∧ getField fs "action" = some (.obj afs) ∧
        getField afs "priority_score" = some v ∧ intFromJson v = some n ∧
        (n < 1 ∨ 10 < n)) ∨
      (∃ fs afs v, p = .obj fs ∧ getField fs "action" = some (.obj afs) ∧
        getField afs "priority_score" = some v ∧
        (v = .null ∨ (∃ b, v = .bool b) ∨ (∃ xs, v = .arr xs) ∨ (∃ m, v = .obj m))) ∨
      (∃ fs afs v, p = .obj fs ∧ getField fs "analysis" = some (.obj afs) ∧
        getField afs "urgency" = some v ∧ ¬ ∃ s, v = .str s ∧ s ∈ urgencyLiterals) ∨
      (∃ fs afs v, p = .obj fs ∧ getField fs "analysis" = some (.obj afs) ∧
        getField afs "sentiment" = some v ∧ ¬ ∃ s, v = .str s ∧ s ∈ sentimentLiterals) ∨
      (∃ fs afs v, p = .obj fs ∧ getField fs "action" = some (.obj afs) ∧
        getField afs "action" = some v ∧ ¬ ∃ s, v = .str s ∧ s ∈ actionLiterals)) →
      (∃ e, TriageResult.model_validate p = .error e) ∧
      ∀ r, TriageResult.model_validate p ≠ .ok r) ∧
    (∀ fs afs v r, p = .obj fs → getField fs "action" = some (.obj afs) →
      getField afs "priority_score" = some v →
      TriageResult.model_validate p = .ok r →
      intFromJson v = some r.action.priority_score ∧
      1 ≤ r.action.priority_score ∧ r.action.priority_score ≤ 10) := by
  have hsucc : ∀ fs afs v r, p = .obj fs → getField fs "action" = some (.obj afs) →
      getField afs "priority_score" = some v →
      TriageResult.model_validate p = .ok r →
      intFromJson v = some r.action.priority_score ∧
      1 ≤ r.action.priority_score ∧ r.action.priority_score ≤ 10 := by
    intro fs afs v r hpfs haf hps hv
    obtain ⟨fs2, hp, _, _, ⟨jac, hjac, hact⟩, _, _⟩ := TriageResult_validate_ok hv
    rw [hp] at hpfs
    injection hpfs with hfs; subst hfs
    rw [hjac] at haf
    injection haf with hj; subst hj
    obtain ⟨afs2, haa, _, _, ⟨v2, hv2g, hv2c⟩, hlo, hhi, _, _⟩ :=
      SuggestedAction_validate_ok hact
    injection haa with ha2; subst ha2
    rw [hv2g] at hps
    injection hps with hvv
    subst hvv
    exact ⟨hv2c, hlo, hhi⟩
  refine ⟨?_, hsucc⟩
  intro hbad
  cases hv : TriageResult.model_validate p with
  | error e => exact ⟨⟨e, rfl⟩, fun r h => nomatch h⟩
  | ok r =>
    exfalso
    rcases hbad with ⟨fs, afs, v, n, hpfs, haf, hps, hcoe, hout⟩ |
        ⟨fs, afs, v, hpfs, haf, hps, hkind⟩ |
        ⟨fs, afs, v, hpfs, haf, hfield, hnot⟩ |
        ⟨fs, afs, v, hpfs, haf, hfield, hnot⟩ |
        ⟨fs, afs, v, hpfs, haf, hfield, hnot⟩
    · obtain ⟨hc, hlo, hhi⟩ := hsucc fs afs v r hpfs haf hps hv
      rw [hc] at hcoe
      injection hcoe with he
      omega
    · obtain ⟨hc, _, _⟩ := hsucc fs afs v r hpfs haf hps hv
      rcases hkind with rfl | ⟨b, rfl⟩ | ⟨xs, rfl⟩ | ⟨m, rfl⟩ <;>
        simp [intFromJson] at hc
    · obtain ⟨fs2, hp, _, ⟨jan, hjan, hana⟩, _, _, _⟩ := TriageResult_validate_ok hv
      rw [hp] at hpfs
      injection hpfs with hfs; subst hfs
      rw [hjan] at haf
      injection haf with hj; subst hj
      obtain ⟨afs2, haa, hu, hmemu, _, _, _, _, _, _⟩ := TicketAnalysis_validate_ok hana
      injection haa with ha2; subst ha2
      rw [hu] at hfield
      injection hfield with hv2
      exact hnot ⟨r.analysis.urgency, hv2.symm, hmemu⟩
    · obtain ⟨fs2, hp, _, ⟨jan, hjan, hana⟩, _, _, _⟩ := TriageResult_validate_ok hv
      rw [hp] at hpfs
      injection hpfs with hfs; subst hfs
      rw [hjan] at haf
      injection haf with hj; subst hj
      obtain ⟨afs2, haa, _, _, hs, hmems, _, _, _, _⟩ := TicketAnalysis_validate_ok hana
      injection haa with ha2; subst ha2
      rw [hs] at hfield
      injection hfield with hv2
      exact hnot ⟨r.analysis.sentiment, hv2.symm, hmems⟩
    · obtain ⟨fs2, hp, _, _, ⟨jac, hjac, hact⟩, _, _⟩ := TriageResult_validate_ok hv
      rw [hp] at hpfs
      injection hpfs with hfs; subst hfs
      rw [hjac] at haf
      injection haf with hj; subst hj
      obtain ⟨afs2, haa, hac2, hmema, _, _, _, _, _⟩ := SuggestedAction_validate_ok hact
      injection haa with ha2; subst ha2
      rw [hac2] at hfield
      injection hfield with hv2
      exact hnot ⟨r.action.action, hv2.symm, hmema⟩

/-- The `action` sub-payload fields carrying the out-of-range score 11. -/
def c4BadActionFields : List (String × Json) :=
  [("action", .str "route_to_specialist"), ("suggested_reply", .str "We are on it."),
   ("reason", .str "billing issue"), ("priority_score", .num 11)]

/-- The `action` sub-payload fields carrying the coercible string "7". -/
def c4StrActionFields : List (String × Json) :=
  [("action", .str "route_to_specialist"), ("suggested_reply", .str "We are on it."),
   ("reason", .str "billing issue"), ("priority_score", .str "7")]

/-- The result the string-"7" payload validates to. -/
def c4CoercedExpected : TriageResult :=
  ⟨"T-1", sampleAnalysisExpected, sampleActionExpected 7, "ctx", []⟩

/-- Witness for the amended C4 at concrete payloads: `priority_score = 11`
is rejected, `urgency = "Critical"` (wrong case) is rejected, and on the
successfully validated string-"7" payload the stored score is the coerced
7, in range. -/
theorem C4_priority_and_enum_rejection_witness :
    (∃ e, TriageResult.model_validate
        (.obj (sampleFields "T-1" (.num 11) (.str "ctx") [])) = .error e) ∧
    (∃ e, TriageResult.model_validate
        (.obj [("ticket_id", .str "T-1"),
               ("analysis", .obj [("urgency", .str "Critical")])]) = .error e) ∧
    (intFromJson (.str "7") = some c4CoercedExpected.action.priority_score ∧
      1 ≤ c4CoercedExpected.action.priority_score ∧
      c4CoercedExpected.action.priority_score ≤ 10) :=
  ⟨((C4_priority_and_enum_rejection _).1
      (Or.inl ⟨sampleFields "T-1" (.num 11) (.str "ctx") [], c4BadActionFields,
        .num 11, 11, rfl, rfl, rfl, rfl, Or.inr (by decide)⟩)).1,
   ((C4_priority_and_enum_rejection _).1
      (Or.inr (Or.inr (Or.inl ⟨[("ticket_id", .str "T-1"),
          ("analysis", .obj [("urgency", .str "Critical")])],
        [("urgency", .str "Critical")], .str "Critical", rfl, rfl, rfl, by
        rintro ⟨s, hs, hmem⟩
        injection hs with h3
        subst h3
        simp [urgencyLiterals] at hmem⟩)))).1,
   (C4_priority_and_enum_rejection
      (.obj (sampleFields "T-1" (.str "7") (.str "ctx") []))).2
     (sampleFields "T-1" (.str "7") (.str "ctx") []) c4StrActionFields (.str "7")
     c4CoercedExpected rfl rfl rfl rfl⟩

/-! ## C5 -/

/-- **C5.** For every decoded payload whose `customer_context` field is a
structured object rather than a string (and which otherwise validates),
validation succeeds on that field and the stored value is the canonical
JSON text of the object: the object-to-string canonicalization
(`coerce_customer_context`, a `mode="before"` validator) runs before the
string-type check, so an object value never yields the field's type
error, and a successful whole-payload validation stores exactly
`Json.dumps` of the object. -/
theorem C5_customer_context_normalization :
    (∀ m, vCustomerContext (.obj m) = .ok (Json.dumps (.obj m))) ∧
    (∀ fs m r, getField fs "customer_context" = some (.obj m) →
      TriageResult.model_validate (.obj fs) = .ok r →
      r.customer_context = Json.dumps (.obj m)) := by
  constructor
  · intro m; rfl
  · intro fs m r hcc hv
    obtain ⟨fs', hobj, _, _, _, ⟨jcc, hjcc, hval⟩, _⟩ := TriageResult_validate_ok hv
    injection hobj with hfs; subst hfs
    rw [hjcc] at hcc
    injection hcc with hj; subst hj
    have h2 : vCustomerContext (.obj m) = Except.ok (Json.dumps (.obj m)) := rfl
    rw [h2] at hval
    injection hval with h3
    exact h3.symm

/-- The customer-context object used in the C5 witness. -/
def c5ContextObj : List (String × Json) := [("plan", .str "pro"), ("seats", .num 5)]

/-- The result that the C5 witness payload validates to. -/
def c5Expected : TriageResult :=
  ⟨"T-1", sampleAnalysisExpected, sampleActionExpected 7,
   Json.dumps (.obj c5ContextObj), []⟩

/-- Witness for C5: a full concrete payload whose `customer_context` is an
object validates successfully and stores that object's JSON text. -/
theorem C5_customer_context_normalization_witness :
    TriageResult.model_validate (.obj (sampleFields "T-1" (.num 7) (.obj c5ContextObj) [])) =
      .ok c5Expected ∧
    c5Expected.customer_context = Json.dumps (.obj c5ContextObj) ∧
    Json.dumps (.obj c5ContextObj) = "\x7b\"plan\": \"pro\", \"seats\": 5\x7d" :=
  ⟨rfl,
   C5_customer_context_normalization.2
     (sampleFields "T-1" (.num 7) (.obj c5ContextObj) []) c5ContextObj c5Expected rfl rfl,
   rfl⟩

/-! ## C10 -/

/-- **C10.** For every decoded payload that satisfies all other
`TriageResult` constraints but omits the `kb_articles_used` key entirely,
schema validation succeeds (the absent key validates to the
`default_factory=list` default, so it can never be the failing field) and
the resulting `TriageResult.kb_articles_used` is the empty list. -/
theorem C10_kb_articles_absent_defaults_empty (fs : List (String × Json))
    (habs : getField fs "kb_articles_used" = none) :
    vKbArticles fs = .ok [] ∧
    ∀ r, TriageResult.model_validate (.obj fs) = .ok r → r.kb_articles_used = [] := by
  have h1 : vKbArticles fs = .ok [] := by unfold vKbArticles; rw [habs]
  refine ⟨h1, fun r hv => ?_⟩
  obtain ⟨fs', hobj, _, _, _, _, hkb⟩ := TriageResult_validate_ok hv
  injection hobj with hfs; subst hfs
  rw [h1] at hkb
  injection hkb with h2
  exact h2.symm

/-- The C10 witness payload: a fully valid payload with no
`kb_articles_used` key. -/
def c10Fields : List (String × Json) := sampleFields "T-1" (.num 7) (.str "ctx") []

/-- The result that the C10 witness payload validates to. -/
def c10Expected : TriageResult :=
  ⟨"T-1", sampleAnalysisExpected, sampleActionExpected 7, "ctx", []⟩

/-- Witness for C10: the concrete payload without the key validates
successfully and its `kb_articles_used` is `[]`. -/
theorem C10_kb_articles_absent_defaults_empty_witness :
    TriageResult.model_validate (.obj c10Fields) = .ok c10Expected ∧
    c10Expected.kb_articles_used = [] ∧
    vKbArticles c10Fields = .ok [] :=
  ⟨rfl,
   (C10_kb_articles_absent_defaults_empty c10Fields rfl).2 c10Expected rfl,
   (C10_kb_articles_absent_defaults_empty c10Fields rfl).1⟩

/-! ## C9 -/

/-- **C9 counterexample.** `process_ticket` never compares the payload's
`ticket_id` with the input ticket's identifier: a run whose final answer
carries `ticket_id = "OTHER"` for input ticket `"T-1"` succeeds and
returns an `AgentResponse` carrying the wrong identifier.  (In
`_parse_response`, agent.py lines 195-216, the `ticket_id` argument is used
only in error messages; `TriageResult.model_validate(data)` accepts
whatever identifier the payload supplies.) -/
theorem C9_counterexample :
    process_ticket
        (fun _ => .ok (.obj (sampleFields "OTHER" (.num 7) (.str "ctx") [])))
        (fun _ => ⟨.ok ⟨⟨"stop", ⟨some ['x'], []⟩⟩, none⟩, .failed "unused",
                   fun _ _ => .raises "unused"⟩)
        "sys" ⟨"T-1", "a@example.com", none, []⟩ =
      .ok ⟨⟨"OTHER", sampleAnalysisExpected, sampleActionExpected 7, "ctx", []⟩,
           [], 1, 0, 0, 0⟩ ∧
    ("OTHER" : String) ≠ "T-1" :=
  ⟨rfl, by decide⟩

/-- **C9 amended.** For every successful validation, the returned
`TriageResult.ticket_id` is exactly the `ticket_id` string of the decoded
payload — the code performs no cross-check against the input ticket's
identifier, so a successful run carries whatever identifier the final
payload supplied. -/
theorem C9_ticket_id_from_payload (p : Json) (r : TriageResult)
    (h : TriageResult.model_validate p = .ok r) :
    ∃ fs, p = .obj fs ∧ getField fs "ticket_id" = some (.str r.ticket_id) := by
  obtain ⟨fs, hobj, htid, _⟩ := TriageResult_validate_ok h
  exact ⟨fs, hobj, htid⟩

/-- Witness for the amended C9 at a concrete payload. -/
theorem C9_ticket_id_from_payload_witness :
    ∃ fs, (.obj (sampleFields "OTHER" (.num 7) (.str "ctx") []) : Json) = .obj fs ∧
      getField fs "ticket_id" =
        some (.str (TriageResult.mk "OTHER" sampleAnalysisExpected
          (sampleActionExpected 7) "ctx" []).ticket_id) :=
  C9_ticket_id_from_payload _ _ rfl

/-! ## C7 -/

/-- Whether a parse outcome is the empty-response error. -/
def resultIsEmptyResponse (x : Except ParseErr TriageResult) : Bool :=
  match x with
  | .error (.emptyResponse _) => true
  | _ => false

/-- A decoder that fails the way `json.loads` fails on every input the
counterexample feeds it (`json.loads("")` always raises, since a JSON
document must contain a value). -/
def c7Decode : List Char → Except String Json :=
  fun _ => .error "Expecting value: line 1 column 1 (char 0)"

/-- **C7 counterexample.** Whitespace-only content is *not* rejected with
the empty-response error: Python's `not content` is false for `" "`, so
`_parse_response` proceeds to fence-stripping and structured decoding, and
fails with the invalid-JSON error instead (the stripped text is empty and
`json.loads("")` raises).  This refutes the claim that blank
(whitespace-only) content fails with an empty-response error before any
stripping or decoding is attempted. -/
theorem C7_counterexample :
    parse_response c7Decode (some [' ']) "T-1" =
      .error (.invalidJson
        "LLM returned invalid JSON for ticket T-1: Expecting value: line 1 column 1 (char 0)") ∧
    resultIsEmptyResponse (parse_response c7Decode (some [' ']) "T-1") = false :=
  ⟨rfl, rfl⟩

/-- **C7 amended.** Absent (`None`) or *empty* final-answer content fails
immediately with the empty-response error naming the ticket identifier,
before any fence stripping or decoding (the result does not depend on the
decoder); nonempty content — including whitespace-only content — can never
produce the empty-response error, and whitespace-only content reaches the
decoder with the empty string and fails with the invalid-JSON error. -/
theorem C7_empty_or_missing_content
    (d : List Char → Except String Json) (tid : String) :
    parse_response d none tid =
      .error (.emptyResponse ("Empty response from LLM for ticket " ++ tid)) ∧
    parse_response d (some []) tid =
      .error (.emptyResponse ("Empty response from LLM for ticket " ++ tid)) ∧
    (∀ c, c ≠ [] → resultIsEmptyResponse (parse_response d (some c) tid) = false) ∧
    (∀ c em, c ≠ [] → pyStrip c = [] → d [] = .error em →
      parse_response d (some c) tid =
        .error (.invalidJson ("LLM returned invalid JSON for ticket " ++ tid ++ ": " ++ em))) := by
  refine ⟨rfl, rfl, ?_, ?_⟩
  · intro c hc
    simp only [parse_response, if_neg hc]
    cases d (extract_json c) with
    | error e => simp [resultIsEmptyResponse]
    | ok data =>
      cases hv : TriageResult.model_validate data with
      | error e => simp [resultIsEmptyResponse, hv]
      | ok r => simp [resultIsEmptyResponse, hv]
  · intro c em hc hstrip hdec
    have hext : extract_json c = [] := by
      simp only [extract_json, hstrip]
      rfl
    simp only [parse_response, if_neg hc, hext, hdec]

/-- Witness for the amended C7 at concrete inputs. -/
theorem C7_empty_or_missing_content_witness :
    parse_response c7Decode none "T-9" =
      .error (.emptyResponse ("Empty response from LLM for ticket " ++ "T-9")) ∧
    resultIsEmptyResponse (parse_response c7Decode (some ['\t', ' ']) "T-9") = false ∧
    parse_response c7Decode (some ['\t', ' ']) "T-9" =
      .error (.invalidJson ("LLM returned invalid JSON for ticket " ++ "T-9" ++ ": " ++
        "Expecting value: line 1 column 1 (char 0)")) :=
  ⟨(C7_empty_or_missing_content c7Decode "T-9").1,
   (C7_empty_or_missing_content c7Decode "T-9").2.2.1 ['\t', ' '] (by decide),
   (C7_empty_or_missing_content c7Decode "T-9").2.2.2 ['\t', ' ']
     "Expecting value: line 1 column 1 (char 0)" (by decide) (by decide) rfl⟩

/-! ## C6 -/

/-- A final answer wrapped in a code fence: a leading fence line `` ```tag ``,
the text `t`, and a closing line of three backticks. -/
def fenceWrap (tag t : List Char) : List Char :=
  '`' :: '`' :: '`' :: (tag ++ '\n' :: (t ++ ['\n', '`', '`', '`']))

theorem afterFirstNewline_through (l r : List Char) (h : '\n' ∉ l) :
    afterFirstNewline (l ++ '\n' :: r) = r := by
  induction l with
  | nil => simp [afterFirstNewline]
  | cons c cs ih =>
    have hc : ¬ c = '\n' := fun hcc => h (by simp [hcc])
    have hcs : '\n' ∉ cs := fun hm => h (List.mem_cons_of_mem _ hm)
    simp only [List.cons_append, afterFirstNewline, if_neg hc]
    exact ih hcs

theorem pyStrip_fenceWrap (tag t : List Char) :
    pyStrip (fenceWrap tag t) = fenceWrap tag t := by
  have hw : fenceWrap tag t
      = ('`' :: '`' :: '`' :: (tag ++ '\n' :: (t ++ ['\n']))) ++ ['`', '`', '`'] := by
    simp [fenceWrap]
  unfold pyStrip
  rw [hw, List.reverse_append]
  simp [List.dropWhile, pySpace]

theorem dropAfterLastFence_closing (t : List Char) :
    dropAfterLastFence (t ++ ['\n', '`', '`', '`']) = t ++ ['\n'] := by
  unfold dropAfterLastFence
  have h1 : (t ++ ['\n', '`', '`', '`']).reverse = '`' :: '`' :: '`' :: '\n' :: t.reverse := by
    simp
  rw [h1]
  simp [findFenceRev]

theorem pyStrip_append_newline (t : List Char) :
    pyStrip (t ++ ['\n']) = pyStrip t := by
  unfold pyStrip
  have h1 : (t ++ ['\n']).reverse = '\n' :: t.reverse := by simp
  rw [h1]
  simp [List.dropWhile, pySpace]

/-- On a fence-wrapped text the cleaning block of `_parse_response` yields
exactly the stripped inner text. -/
theorem extract_json_fenceWrap (tag t : List Char) (htag : '\n' ∉ tag) :
    extract_json (fenceWrap tag t) = pyStrip t := by
  have hsplit : fenceWrap tag t
      = ('`' :: '`' :: '`' :: tag) ++ '\n' :: (t ++ ['\n', '`', '`', '`']) := by
    simp [fenceWrap]
  have hin : '\n' ∉ ('`' :: '`' :: '`' :: tag) := by simp [htag]
  have hafter : afterFirstNewline (fenceWrap tag t) = t ++ ['\n', '`', '`', '`'] := by
    rw [hsplit]; exact afterFirstNewline_through _ _ hin
  have hfence : startsWithFence (fenceWrap tag t) = true := rfl
  have hmem : '\n' ∈ fenceWrap tag t := by simp [fenceWrap]
  have hnl : (fenceWrap tag t).contains '\n' = true := by
    simp [List.contains, List.elem_eq_mem, hmem]
  simp only [extract_json]
  rw [pyStrip_fenceWrap]
  simp only [hfence, hnl, if_true]
  simp only [hafter]
  rw [dropAfterLastFence_closing, pyStrip_append_newline]

/-- Without a leading fence the cleaning block is just `strip`. -/
theorem extract_json_no_fence (t : List Char)
    (h : startsWithFence (pyStrip t) = false) :
    extract_json t = pyStrip t := by
  simp only [extract_json, h]
  simp

/-- **C6.** For every nonempty final-answer text `t` that does not itself
begin (after stripping) with a code fence — in particular for every JSON
text, which must begin with a JSON value character — parsing the
fence-wrapped form (a `` ```tag `` line, then `t`, then a closing
three-backtick line) produces exactly the same result as parsing `t`
unwrapped: the cleaned text handed to the decoder is identical, so success,
failure, and the produced `TriageResult` all coincide, for every decoder. -/
theorem C6_code_fence_transparent (d : List Char → Except String Json)
    (tid : String) (t tag : List Char) (ht : t ≠ [])
    (hfence : startsWithFence (pyStrip t) = false) (htag : '\n' ∉ tag) :
    parse_response d (some (fenceWrap tag t)) tid = parse_response d (some t) tid := by
  have hwne : fenceWrap tag t ≠ [] := by simp [fenceWrap]
  simp only [parse_response, if_neg hwne, if_neg ht]
  rw [extract_json_fenceWrap tag t htag, extract_json_no_fence t hfence]

/-- A decoder accepting exactly the text `null` (enough to exercise both a
successful and a failing parse in the C6 witness). -/
def c6Decode : List Char → Except String Json :=
  fun s => if s = ['n', 'u', 'l', 'l'] then .ok .null else .error "Expecting value"

/-- Witness for C6: wrapping the concrete text `null` in a ```` ```json ````
fence leaves the parse outcome unchanged. -/
theorem C6_code_fence_transparent_witness :
    parse_response c6Decode
        (some (fenceWrap ['j', 's', 'o', 'n'] ['n', 'u', 'l', 'l'])) "T-1" =
      parse_response c6Decode (some ['n', 'u', 'l', 'l']) "T-1" :=
  C6_code_fence_transparent c6Decode "T-1" ['n', 'u', 'l', 'l'] ['j', 's', 'o', 'n']
    (by decide) rfl (by decide)

/-! ## C8 -/

/-- A plan-tier table whose `"free"` entry is distinguishable from the
hard-coded fallbacks (label `"Free"`, an SLA number, a feature). -/
def c8Tiers : List (String × List (String × Json)) :=
  [("free", [("label", .str "Free"), ("sla_hours", .num 72),
             ("priority", .str "low"), ("support_channel", .str "email"),
             ("features", .arr [.str "community_support"]), ("auto_escalate", .bool false)])]

/-- A customer whose plan key `"gold"` is absent from `c8Tiers`. -/
def c8Customer : List (String × Json) :=
  [("email", .str "a@example.com"), ("plan", .str "gold")]

/-- **C8 counterexample.** For a customer whose plan key is absent from the
plan-tier table, `fetch_customer_data` does *not* populate `plan_details`
with the `"free"` tier's data: `tiers.get(plan_key, {})` yields an empty
dict (tools.py line 38), so every sub-field falls back to a hard-coded
default — label becomes the unknown plan key `"gold"` (not the free tier's
`"Free"`), `sla_hours` becomes null (not the free tier's 72), and
`features` becomes `[]` (not the free tier's list).  The stored free tier
is never consulted. -/
theorem C8_counterexample :
    fetch_customer_data [c8Customer] c8Tiers "a@example.com" =
      .obj (c8Customer ++ [("plan_details", .obj
        [("label", .str "gold"), ("sla_hours", .null), ("priority", .str "low"),
         ("support_channel", .str "email"), ("features", .arr []),
         ("auto_escalate", .bool false)])]) ∧
    getField (c8Tiers.head!.2) "label" = some (.str "Free") ∧
    ("gold" : String) ≠ "Free" ∧
    getField (c8Tiers.head!.2) "sla_hours" = some (.num 72) :=
  ⟨rfl, rfl, by decide, rfl⟩

/-- **C8 amended.** For every customer record found by email whose plan key
is a string absent from the plan-tier lookup table, `fetch_customer_data`
succeeds (returns the augmented profile, not an error object) and returns
a `plan_details` block populated with a hard-coded safe fallback for every
sub-field: label = the unknown plan key itself, sla_hours = null,
priority = "low", support_channel = "email", features = [],
auto_escalate = false.  The stored `"free"` tier entry is not consulted. -/
theorem C8_unknown_plan_fallbacks
    (customers : List (List (String × Json)))
    (tiers : List (String × List (String × Json)))
    (email planName : String) (c : List (String × Json))
    (hfind : customers.find? (fun x => emailMatches x email) = some c)
    (hplan : getField c "plan" = some (.str planName))
    (habsent : lookupTier tiers planName = none) :
    fetch_customer_data customers tiers email =
      .obj (c ++ [("plan_details", .obj
        [("label", .str planName), ("sla_hours", .null), ("priority", .str "low"),
         ("support_channel", .str "email"), ("features", .arr []),
         ("auto_escalate", .bool false)])]) := by
  unfold fetch_customer_data
  rw [hfind]
  simp only [hplan, Option.getD_some, habsent, Option.getD_none]
  rfl

/-- Witness for the amended C8 at the concrete customer and table. -/
theorem C8_unknown_plan_fallbacks_witness :
    fetch_customer_data [c8Customer] c8Tiers "a@example.com" =
      .obj (c8Customer ++ [("plan_details", .obj
        [("label", .str "gold"), ("sla_hours", .null), ("priority", .str "low"),
         ("support_channel", .str "email"), ("features", .arr []),
         ("auto_escalate", .bool false)])]) :=
  C8_unknown_plan_fallbacks [c8Customer] c8Tiers "a@example.com" "gold" c8Customer
    rfl rfl rfl

/-! ## Loop lemmas shared by C1-C3 -/

theorem addUsage_traces (st : LoopState) (r : ModelResponse) :
    (addUsage st r).traces = st.traces := by
  cases h : r.usage <;> simp [addUsage, h]

theorem addUsage_rounds (st : LoopState) (r : ModelResponse) :
    (addUsage st r).rounds = st.rounds := by
  cases h : r.usage <;> simp [addUsage, h]

/-- A round in which the model requests exactly one (well-formed) tool call
and does not signal completion. -/
def oneCallNoStop (env : RoundEnv) : Prop :=
  ∃ resp tc args, env.primary = .ok resp ∧
    resp.choice.finish_reason ≠ "stop" ∧
    resp.choice.message.tool_calls = [tc] ∧
    tc.argumentsDecode = .ok args

/-- If every remaining round requests a tool call and never signals
completion, the loop exhausts its env list and raises the bounded-rounds
error, having accumulated one trace per round. -/
theorem runRounds_exhausts (decode : List Char → Except String Json) (tid : String)
    (envList : List RoundEnv) (st : LoopState)
    (h : ∀ env ∈ envList, oneCallNoStop env) :
    ∃ f, runRounds decode tid envList st = .error f ∧
      f.err = .roundsExceeded
        ("Agent exceeded " ++ toString MAX_TOOL_ROUNDS ++ " tool rounds for ticket " ++ tid) ∧
      f.traces.length = st.traces.length + envList.length ∧
      f.rounds = st.rounds + envList.length := by
  induction envList generalizing st with
  | nil => exact ⟨_, rfl, rfl, by simp, by simp⟩
  | cons env rest ih =>
    obtain ⟨resp, tc, args, hprim, hstop, hcalls, hargs⟩ := h env (by simp)
    have hcm : callModelOnce env = .ok resp := by simp [callModelOnce, hprim]
    have hcond : ¬(resp.choice.finish_reason = "stop" ∨
        resp.choice.message.tool_calls.isEmpty = true) := by
      rintro (h1 | h2)
      · exact hstop h1
      · rw [hcalls] at h2; simp at h2
    obtain ⟨st3, hstep, hlen3, hro3⟩ : ∃ st3,
        runRounds decode tid (env :: rest) st = runRounds decode tid rest st3 ∧
        st3.traces.length = st.traces.length + 1 ∧ st3.rounds = st.rounds + 1 := by
      simp only [runRounds, hcm]
      rw [if_neg hcond]
      simp only [hcalls, dispatchCalls, dispatchOne, hargs]
      refine ⟨_, rfl, ?_, ?_⟩
      · simp [addUsage_traces]
      · simp [addUsage_rounds]
    obtain ⟨f, hr, he, hl, hro⟩ :=
      ih st3 (fun env2 hm => h env2 (List.mem_cons_of_mem _ hm))
    refine ⟨f, hstep ▸ hr, he, ?_, ?_⟩
    · simp only [List.length_cons]; omega
    · simp only [List.length_cons]; omega

/-! ## C1 -/

/-- **C1.** For every agent run in which each of the 5 rounds yields a
model response requesting exactly one (well-formed) tool call and never
signaling completion, `process_ticket` raises the bounded-rounds
`RuntimeError` whose message names the ticket identifier, after exactly 5
rounds; the `tool_traces` list accumulated at the point of failure has
exactly 5 entries, and no `AgentResponse` is returned. -/
theorem C1_round_budget_exhausted (decode : List Char → Except String Json)
    (envs : Nat → RoundEnv) (sys : String) (t : Ticket)
    (h : ∀ i, i < MAX_TOOL_ROUNDS → oneCallNoStop (envs i)) :
    ∃ f, process_ticket decode envs sys t = .error f ∧
      f.err = .roundsExceeded ("Agent exceeded 5 tool rounds for ticket " ++ t.ticket_id) ∧
      f.traces.length = 5 ∧ f.rounds = 5 ∧
      ∀ resp, process_ticket decode envs sys t ≠ .ok resp := by
  have hall : ∀ env ∈ (List.range MAX_TOOL_ROUNDS).map envs, oneCallNoStop env := by
    intro env he
    obtain ⟨i, hi, rfl⟩ := List.mem_map.mp he
    exact h i (List.mem_range.mp hi)
  obtain ⟨f, hr, he2, hl, hro⟩ :=
    runRounds_exhausts decode t.ticket_id _ (initState sys t) hall
  have hmsg : "Agent exceeded " ++ toString MAX_TOOL_ROUNDS ++ " tool rounds for ticket "
      ++ t.ticket_id = "Agent exceeded 5 tool rounds for ticket " ++ t.ticket_id := rfl
  refine ⟨f, hr, by rw [he2, hmsg], ?_, ?_, ?_⟩
  · rw [hl]; simp [initState, MAX_TOOL_ROUNDS]
  · rw [hro]; simp [initState, MAX_TOOL_ROUNDS]
  · intro resp hok
    rw [process_ticket] at hok
    rw [hr] at hok
    cases hok

/-- The single tool call every C1 witness round requests. -/
def c1ToolCall : ToolCall :=
  ⟨"call_1", "fetch_customer_data", .ok [("email", .str "a@example.com")]⟩

/-- The model response every C1 witness round returns. -/
def c1Resp : ModelResponse :=
  ⟨⟨"tool_calls", ⟨none, [c1ToolCall]⟩⟩, none⟩

/-- The environment of every C1 witness round. -/
def c1Env : RoundEnv :=
  ⟨.ok c1Resp, .failed "unused", fun _ _ => .success (.obj [])⟩

/-- Witness for C1 at a concrete run whose 5 rounds each request one tool
call. -/
theorem C1_round_budget_exhausted_witness :
    ∃ f, process_ticket (fun _ => .error "unused") (fun _ => c1Env) "sys"
        ⟨"T-1", "a@example.com", none, []⟩ = .error f ∧
      f.err = .roundsExceeded ("Agent exceeded 5 tool rounds for ticket " ++ "T-1") ∧
      f.traces.length = 5 ∧ f.rounds = 5 ∧
      ∀ resp, process_ticket (fun _ => .error "unused") (fun _ => c1Env) "sys"
        ⟨"T-1", "a@example.com", none, []⟩ ≠ .ok resp :=
  C1_round_budget_exhausted (fun _ => .error "unused") (fun _ => c1Env) "sys"
    ⟨"T-1", "a@example.com", none, []⟩
    (fun _ _ => ⟨c1Resp, c1ToolCall, [("email", .str "a@example.com")],
      rfl, by decide, rfl, rfl⟩)

/-! ## C2 -/

theorem runTool_toolExec_congr (env env2 : RoundEnv)
    (h : env.toolExec = env2.toolExec) (name : String) (args : List (String × Json)) :
    runTool env name args = runTool env2 name args := by
  simp [runTool, h]

theorem dispatchOne_toolExec_congr (env env2 : RoundEnv)
    (h : env.toolExec = env2.toolExec) (st : LoopState) (tc : ToolCall) :
    dispatchOne env st tc = dispatchOne env2 st tc := by
  simp [dispatchOne, runTool_toolExec_congr env env2 h]

theorem dispatchCalls_toolExec_congr (env env2 : RoundEnv)
    (h : env.toolExec = env2.toolExec) (st : LoopState) (calls : List ToolCall) :
    dispatchCalls env st calls = dispatchCalls env2 st calls := by
  induction calls generalizing st with
  | nil => rfl
  | cons tc rest ih =>
    simp only [dispatchCalls, dispatchOne_toolExec_congr env env2 h]
    cases dispatchOne env2 st tc with
    | error f => rfl
    | ok st2 => exact ih st2

/-- **C2.** A rate-limited round recovers through the fallback provider for
that round only: with the fallback's response `r`, the round (and the whole
rest of the run) proceeds exactly as if the primary had returned `r` — the
remaining rounds are governed by their own environments, each consulting
its primary first, since the substituted environment's primary is `.ok r`
and its fallback is arbitrary.  If the fallback also fails, `process_ticket`
raises the composite `RuntimeError` whose message names the original
rate-limit cause and which is chained (`from fallback_error`) to the
fallback's failure cause. -/
theorem C2_rate_limit_fallback_round_local (env : RoundEnv) (e : String)
    (h : env.primary = .rateLimited e) :
    (∀ r fb rest st decode tid, env.fallback = .ok r →
      runRounds decode tid (env :: rest) st =
        runRounds decode tid
          ({ primary := .ok r, fallback := fb, toolExec := env.toolExec } :: rest) st) ∧
    (∀ fe rest st decode tid, env.fallback = .failed fe →
      runRounds decode tid (env :: rest) st =
        .error ⟨.rateLimitAndFallbackFailed
            ("Rate limit reached and fallback failed: " ++ e) fe,
          st.traces, st.rounds + 1⟩) := by
  constructor
  · intro r fb rest st decode tid hfb
    have h1 : callModelOnce env = .ok r := by simp [callModelOnce, h, hfb]
    have h2 : callModelOnce { primary := .ok r, fallback := fb, toolExec := env.toolExec } =
        .ok r := rfl
    have hd : ∀ st2 calls, dispatchCalls env st2 calls =
        dispatchCalls { primary := .ok r, fallback := fb, toolExec := env.toolExec } st2 calls :=
      fun st2 calls => dispatchCalls_toolExec_congr env
        { primary := .ok r, fallback := fb, toolExec := env.toolExec } rfl st2 calls
    simp only [runRounds, h1, h2, hd]
  · intro fe rest st decode tid hfb
    have h1 : callModelOnce env = .error
        (.rateLimitAndFallbackFailed ("Rate limit reached and fallback failed: " ++ e) fe) := by
      simp [callModelOnce, h, hfb]
    simp only [runRounds, h1]

/-- The fallback provider's response in the C2 witness. -/
def c2Resp : ModelResponse := ⟨⟨"stop", ⟨some ['x'], []⟩⟩, none⟩

/-- A rate-limited round whose fallback succeeds. -/
def c2EnvA : RoundEnv := ⟨.rateLimited "429 Too Many Requests", .ok c2Resp,
  fun _ _ => .success .null⟩

/-- A rate-limited round whose fallback also fails. -/
def c2EnvB : RoundEnv := ⟨.rateLimited "429 Too Many Requests", .failed "fallback down",
  fun _ _ => .success .null⟩

/-- An initial loop state for the C2 witness. -/
def c2St : LoopState := ⟨[], [], 0, 0, 0, 0⟩

/-- Witness for C2 at concrete environments: the recovery equality and the
composite failure. -/
theorem C2_rate_limit_fallback_round_local_witness :
    runRounds (fun _ => .error "unused") "T-1" [c2EnvA] c2St =
      runRounds (fun _ => .error "unused") "T-1"
        [{ primary := .ok c2Resp, fallback := .failed "whatever",
           toolExec := c2EnvA.toolExec }] c2St ∧
    runRounds (fun _ => .error "unused") "T-1" [c2EnvB] c2St =
      .error ⟨.rateLimitAndFallbackFailed
          ("Rate limit reached and fallback failed: " ++ "429 Too Many Requests")
          "fallback down",
        c2St.traces, c2St.rounds + 1⟩ :=
  ⟨(C2_rate_limit_fallback_round_local c2EnvA "429 Too Many Requests" rfl).1
      c2Resp (.failed "whatever") [] c2St (fun _ => .error "unused") "T-1" rfl,
   (C2_rate_limit_fallback_round_local c2EnvB "429 Too Many Requests" rfl).2
      "fallback down" [] c2St (fun _ => .error "unused") "T-1" rfl⟩

/-! ## C3 -/

/-- A model response requesting one tool call whose argument text is not
decodable JSON (`json.loads` raises). -/
def c3Resp : ModelResponse :=
  ⟨⟨"tool_calls", ⟨none,
     [⟨"call_1", "fetch_customer_data",
       .error "Expecting value: line 1 column 1 (char 0)"⟩]⟩⟩, none⟩

/-- The round environment delivering `c3Resp`. -/
def c3Env : RoundEnv := ⟨.ok c3Resp, .failed "unused", fun _ _ => .success (.obj [])⟩

/-- **C3 counterexample.** Not every tool-call request survives dispatch:
`json.loads(tool_call.function.arguments)` (agent.py line 146) sits
*outside* the `try` that guards tool execution, so a request whose
argument text is malformed raises straight out of `process_ticket` —
no `ToolTrace` entry is appended, no error object is fed back to the
conversation, and the loop does not proceed to the next round.  This
refutes the claim's blanket "tool dispatch never raises out of the loop"
for malformed-argument requests. -/
theorem C3_counterexample :
    process_ticket (fun _ => .error "unused") (fun _ => c3Env) "sys"
        ⟨"T-1", "a@example.com", none, []⟩ =
      .error ⟨.toolArgsDecodeError "Expecting value: line 1 column 1 (char 0)", [], 1⟩ :=
  rfl

/-- **C3 amended.** For every tool-call request whose argument text decodes
successfully, dispatch never raises out of the loop: an unregistered tool
name yields the structured `{error: "Unknown tool: <name>"}` object, an
exception from a registered tool's callable yields the structured
`{error: <message>}` object; in both cases a `ToolTrace` entry is appended
and the error object (as its JSON text) is appended to the conversation as
that call's tool result, and the loop proceeds to the next round.  (A
request whose argument text does not decode instead raises the decode
error out of the loop — see the counterexample.) -/
theorem C3_dispatch_contract :
    (∀ env name args, TOOL_DISPATCH_names.contains name = false →
      runTool env name args = .obj [("error", .str ("Unknown tool: " ++ name))]) ∧
    (∀ env name args m, TOOL_DISPATCH_names.contains name = true →
      env.toolExec name args = .raises m →
      runTool env name args = .obj [("error", .str m)]) ∧
    (∀ env st tc args, tc.argumentsDecode = .ok args →
      dispatchOne env st tc = .ok { st with
        traces := st.traces ++ [⟨tc.name, args, runTool env tc.name args⟩],
        messages := st.messages ++ [.tool tc.id (Json.dumps (runTool env tc.name args))] }) ∧
    (∀ env st calls, (∀ tc ∈ calls, ∃ args, tc.argumentsDecode = .ok args) →
      ∃ st2, dispatchCalls env st calls = .ok st2 ∧
        st2.traces.length = st.traces.length + calls.length) ∧
    (∀ decode tid env rest st resp, callModelOnce env = .ok resp →
      resp.choice.finish_reason ≠ "stop" →
      resp.choice.message.tool_calls.isEmpty = false →
      (∀ tc ∈ resp.choice.message.tool_calls, ∃ args, tc.argumentsDecode = .ok args) →
      ∃ st2, runRounds decode tid (env :: rest) st = runRounds decode tid rest st2) := by
  have hone : ∀ env st tc args, tc.argumentsDecode = .ok args →
      dispatchOne env st tc = .ok { st with
        traces := st.traces ++ [⟨tc.name, args, runTool env tc.name args⟩],
        messages := st.messages ++ [.tool tc.id (Json.dumps (runTool env tc.name args))] } := by
    intro env st tc args hargs
    simp [dispatchOne, hargs]
  have hall : ∀ env st calls, (∀ tc ∈ calls, ∃ args, tc.argumentsDecode = .ok args) →
      ∃ st2, dispatchCalls env st calls = .ok st2 ∧
        st2.traces.length = st.traces.length + calls.length := by
    intro env st calls
    induction calls generalizing st with
    | nil => exact fun _ => ⟨st, rfl, by simp⟩
    | cons tc rest ih =>
      intro hc
      obtain ⟨args, hargs⟩ := hc tc (by simp)
      obtain ⟨st2, hd, hl⟩ := ih _ (fun tc2 hm => hc tc2 (List.mem_cons_of_mem _ hm))
      refine ⟨st2, ?_, ?_⟩
      · simp only [dispatchCalls, hone env st tc args hargs]
        exact hd
      · rw [hl]
        simp only [List.length_append, List.length_cons]
        simp
        omega
  refine ⟨?_, ?_, hone, hall, ?_⟩
  · intro env name args hn
    unfold runTool
    rw [hn]
    simp
  · intro env name args m hn hr
    unfold runTool
    rw [hn, hr]
    simp
  · intro decode tid env rest st resp hcm hstop hne hc
    obtain ⟨st2, hd, _⟩ := hall env
      { addUsage { st with rounds := st.rounds + 1 } resp with
        messages := (addUsage { st with rounds := st.rounds + 1 } resp).messages
          ++ [.assistant resp.choice.message] }
      resp.choice.message.tool_calls hc
    refine ⟨st2, ?_⟩
    have hcond : ¬(resp.choice.finish_reason = "stop" ∨
        resp.choice.message.tool_calls.isEmpty = true) := by
      rintro (h1 | h2)
      · exact hstop h1
      · rw [hne] at h2; cases h2
    simp only [runRounds, hcm]
    rw [if_neg hcond]
    rw [hd]

/-- A well-formed tool call naming an unregistered tool. -/
def c3GoodCall : ToolCall := ⟨"call_9", "what_is_this", .ok []⟩

/-- A model response requesting the unregistered-tool call. -/
def c3RespB : ModelResponse := ⟨⟨"tool_calls", ⟨none, [c3GoodCall]⟩⟩, none⟩

/-- A round environment whose registered tools raise `"boom"`. -/
def c3EnvB : RoundEnv := ⟨.ok c3RespB, .failed "unused", fun _ _ => .raises "boom"⟩

/-- An initial loop state for the C3 witness. -/
def c3St : LoopState := ⟨[], [], 0, 0, 0, 0⟩

/-- Witness for the amended C3 at concrete inputs: unknown tool name,
raising registered tool, and a round that proceeds to the next round. -/
theorem C3_dispatch_contract_witness :
    runTool c3EnvB "what_is_this" [] =
      .obj [("error", .str ("Unknown tool: " ++ "what_is_this"))] ∧
    runTool c3EnvB "fetch_customer_data" [] = .obj [("error", .str "boom")] ∧
    (∃ st2, runRounds (fun _ => .error "unused") "T-1" [c3EnvB] c3St =
      runRounds (fun _ => .error "unused") "T-1" [] st2) :=
  ⟨C3_dispatch_contract.1 c3EnvB "what_is_this" [] rfl,
   C3_dispatch_contract.2.1 c3EnvB "fetch_customer_data" [] "boom" rfl rfl,
   C3_dispatch_contract.2.2.2.2 (fun _ => .error "unused") "T-1" c3EnvB [] c3St c3RespB
     rfl (by decide) rfl
     (by intro tc hm
         have hm2 : tc ∈ [c3GoodCall] := hm
         rw [List.mem_singleton] at hm2
         subst hm2
         exact ⟨[], rfl⟩)⟩

end Triage
